import Mathlib

/-!
Shallow embedding of the manga_tool application (a React/TypeScript app that
uploads character-sheet images and a pose reference, then fans out ten
parallel generation calls against a remote image-generation service).

Sources embedded:
* `src/services/geminiService.ts` — `generateMangaPanel` and its helper
  `generateSingleImage` (namespace `GeminiService`);
* `src/App.tsx` — `handleCharacterFiles`, `handlePoseFile`, `handleGenerate`
  (namespace `App`);
* `src/components/DrawingCanvas.tsx` — the drawing-surface state machine
  (namespace `DrawingCanvas`).

Remote I/O is modelled by an oracle `remote : Nat → GenPayload → RemoteCallResult`
giving the response of the i-th parallel call, together with a
`schedule : Nat → Nat` giving each call's completion time, so that claims
about settlement order versus dispatch order can be stated.
-/

namespace GeminiService

/-- One inline image part of a request or response
(`{ inlineData: { mimeType, data } }` in the source). -/
structure InlinePart where
  mimeType : String
  data : String
deriving DecidableEq, Repr

/-- One part of a remote response candidate's content: it may or may not carry
inline image data (`part.inlineData` in the source). -/
structure RemotePart where
  inlineData : Option InlinePart
deriving DecidableEq, Repr

/-- The content of a response candidate (`candidates[i].content.parts`). -/
structure CandidateContent where
  parts : List RemotePart
deriving DecidableEq, Repr

/-- One response candidate. -/
structure Candidate where
  content : CandidateContent
deriving DecidableEq, Repr

/-- A remote response: a list of candidates. -/
structure RemoteResponse where
  candidates : List Candidate
deriving DecidableEq, Repr

/-- The result of one remote call: either a response object, or a thrown
exception (the `catch (e)` branch of `generateSingleImage`). -/
inductive RemoteCallResult where
  | success (resp : RemoteResponse)
  | failure
deriving DecidableEq, Repr

/-- The request payload built once per `generateMangaPanel` run and shared by
all ten calls: the prompt text, the character parts, the pose part and the
fixed aspect ratio (`contents.parts` plus `config.imageConfig`). -/
structure GenPayload where
  promptText : String
  characterParts : List InlinePart
  posePart : InlinePart
  aspectRatio : String
deriving DecidableEq, Repr

/-- The mime alternatives of the source regex
`/^data:image\/(png|jpeg|jpg|webp);base64,/`, in alternation order. -/
def imageMimes : List String := ["png", "jpeg", "jpg", "webp"]

/-- `s.replace(/^data:image\/(png|jpeg|jpg|webp);base64,/, "")`: if `s` starts
with `data:image/<m>;base64,` for one of the four mime alternatives (tried in
alternation order), drop that prefix; otherwise return `s` unchanged. -/
def stripDataUrl (s : String) : String :=
  if ("data:image/png;base64,").data.isPrefixOf s.data then
    String.mk (s.data.drop ("data:image/png;base64,").data.length)
  else if ("data:image/jpeg;base64,").data.isPrefixOf s.data then
    String.mk (s.data.drop ("data:image/jpeg;base64,").data.length)
  else if ("data:image/jpg;base64,").data.isPrefixOf s.data then
    String.mk (s.data.drop ("data:image/jpg;base64,").data.length)
  else if ("data:image/webp;base64,").data.isPrefixOf s.data then
    String.mk (s.data.drop ("data:image/webp;base64,").data.length)
  else s

/-- The prompt text template of `generateMangaPanel` (backquoted string in the
source, with the two interpolations made explicit). -/
def promptText (characterImageBase64s : List String) (additionalPrompt : String) : String :=
  "You are a professional manga artist assistant. INPUTS: 1. Character Sheets (First "
    ++ toString characterImageBase64s.length
    ++ " images): These define the character's identity (hair, face, costume, accessories). "
    ++ "2. Pose & Composition Reference (Last image): This defines the exact body pose, camera angle, and perspective. "
    ++ "TASK: Create a high-quality manga/anime style illustration of the character defined in the Character Sheets, acting out the scene in the Pose Reference. "
    ++ "RULES: RESOLUTION: Generate in 1920x1080 (16:9) landscape format. "
    ++ "STRICT CHARACTER CONSISTENCY: The face, hair, and outfit must look exactly like the provided Character Sheets. "
    ++ "EXACT POSE: The character's limb positioning and viewing angle must match the Pose Reference exactly. "
    ++ "STYLE: Use a clean, professional manga art style (monochrome or color based on input style). "
    ++ (if additionalPrompt ≠ "" then "Additional Instructions: " ++ additionalPrompt else "")

/-- Payload construction of `generateMangaPanel`: clean the pose base64, map
each character image to an inline part with the prefix stripped, fix the
aspect ratio to 16:9. -/
def buildPayload (characterImageBase64s : List String) (poseImageBase64 : String)
    (additionalPrompt : String) : GenPayload :=
  { promptText := promptText characterImageBase64s additionalPrompt
    characterParts := characterImageBase64s.map
      (fun img => { mimeType := "image/png", data := stripDataUrl img })
    posePart := { mimeType := "image/png", data := stripDataUrl poseImageBase64 }
    aspectRatio := "16:9" }

/-- Extraction of the image from one remote response (`if (response.candidates
&& response.candidates.length > 0) { for (const part of
candidates[0].content.parts) ... }`): the first part of the first candidate
that carries nonempty inline data yields the image as a fresh png data URL;
otherwise `null`. -/
def extractImage (resp : RemoteResponse) : Option String :=
  match resp.candidates with
  | [] => none
  | c :: _ =>
    c.content.parts.findSome? (fun part =>
      part.inlineData.bind (fun d =>
        if d.data ≠ "" then some ("data:image/png;base64," ++ d.data) else none))

/-- `generateSingleImage`: make one remote call; a thrown exception or a
response without an inline image both downgrade to `none`. -/
def generateSingleImage (remote : Nat → GenPayload → RemoteCallResult)
    (i : Nat) (p : GenPayload) : Option String :=
  match remote i p with
  | .failure => none
  | .success resp => extractImage resp

/-- The number of parallel variations (`numberOfVariations = 10`). -/
def numberOfVariations : Nat := 10

/-- Batch-level error: the `throw new Error("Failed to generate any images.")`
of `generateMangaPanel` (the spec's GenerationError / BatchExhaustionError). -/
inductive GenError where
  | batchExhaustion
deriving DecidableEq, Repr

/-- `err.message` for the batch-level error. -/
def GenError.message : GenError → String
  | .batchExhaustion => "Failed to generate any images."

/-- `Promise.all` over a list of settled tasks, each tagged with its
completion time: the results array is indexed by the dispatch order of the
input array, independent of the completion times. -/
def promiseAll {α : Type} (tasks : List (Nat × α)) : List α :=
  tasks.map Prod.snd

/-- `generateMangaPanel`: build the shared payload, dispatch
`numberOfVariations` calls (returned as the first component, so that the set
of issued calls is observable), join them with `promiseAll`, filter out the
`null` results, and fail with the batch error iff no image was produced. -/
def generateMangaPanel (remote : Nat → GenPayload → RemoteCallResult)
    (schedule : Nat → Nat) (characterImageBase64s : List String)
    (poseImageBase64 : String) (additionalPrompt : String) :
    List (Nat × GenPayload) × Except GenError (List String) :=
  let payload := buildPayload characterImageBase64s poseImageBase64 additionalPrompt
  let calls := (List.range numberOfVariations).map (fun i => (i, payload))
  let tasks := calls.map (fun c => (schedule c.1, generateSingleImage remote c.1 c.2))
  let results := promiseAll tasks
  let validImages := results.filterMap id
  (calls, if validImages.isEmpty then .error .batchExhaustion else .ok validImages)

/-- Insert a call index into a list of call indices kept sorted by
completion time (stable: ties keep the earlier-inserted index first). -/
def insertByTime (schedule : Nat → Nat) (i : Nat) : List Nat → List Nat
  | [] => [i]
  | j :: rest =>
    if schedule j ≤ schedule i then j :: insertByTime schedule i rest
    else i :: j :: rest

/-- Sort call indices by completion time (insertion sort). -/
def sortByTime (schedule : Nat → Nat) : List Nat → List Nat
  | [] => []
  | i :: rest => insertByTime schedule i (sortByTime schedule rest)

/-- Modelled from the spec: the outcome sequence as §4.3/§5 describe it,
ordering the successful payloads by the settlement (completion) order of the
ten calls as given by `schedule`, not by dispatch order. -/
def settlementOutcome (remote : Nat → GenPayload → RemoteCallResult)
    (schedule : Nat → Nat) (characterImageBase64s : List String)
    (poseImageBase64 : String) (additionalPrompt : String) : List String :=
  let payload := buildPayload characterImageBase64s poseImageBase64 additionalPrompt
  let order := sortByTime schedule (List.range numberOfVariations)
  order.filterMap (fun i => generateSingleImage remote i payload)

end GeminiService

namespace App

open GeminiService

/-- A user-selected file at the file-input boundary: its declared content
type, its name, and the result of `readFile` on it (`some dataUrl` when the
FileReader resolves, `none` when it rejects, i.e. the file fails to decode). -/
structure UploadFile where
  type : String
  name : String
  decoded : Option String
deriving DecidableEq, Repr

/-- The React state of `App` that the embedded handlers touch. -/
structure AppState where
  characterImages : List String
  poseImage : Option String
  generatedImages : List String
  isGenerating : Bool
  error : Option String
  customPrompt : String
deriving DecidableEq, Repr

/-- The loop body of `handleCharacterFiles`: the accumulator carries the
`newImages` list and the console-error log; a file whose declared type does
not start with `image/` is skipped, an image-typed file is read, pushing the
data URL on success and logging the failure otherwise. -/
def characterFileStep (acc : List String × List String) (file : UploadFile) :
    List String × List String :=
  if "image/".data.isPrefixOf file.type.data then
    match file.decoded with
    | some dataUrl => (acc.1 ++ [dataUrl], acc.2)
    | none => (acc.1, acc.2 ++ ["Failed to read file " ++ file.name])
  else acc

/-- `handleCharacterFiles`: bail out on a null file list; otherwise clear the
error slot, run the loop over the files, and append the successfully decoded
data URLs to `characterImages` when at least one was produced. The second
component of the result is the console-error log. -/
def handleCharacterFiles (s : AppState) (files : Option (List UploadFile)) :
    AppState × List String :=
  match files with
  | none => (s, [])
  | some fs =>
    let s0 := { s with error := none }
    let step := fs.foldl characterFileStep ([], [])
    let newImages := step.1
    if newImages.isEmpty then (s0, step.2)
    else ({ s0 with characterImages := s0.characterImages ++ newImages }, step.2)

/-- What one file contributes to the character batch: its decoded data URL
when it is image-typed, `none` otherwise (including when the read fails). -/
def imageOf (f : UploadFile) : Option String :=
  if "image/".data.isPrefixOf f.type.data then f.decoded else none

/-- The console-error entry one file contributes: present exactly when the
file is image-typed but its read fails. -/
def decodeFailLog (f : UploadFile) : Option String :=
  if "image/".data.isPrefixOf f.type.data ∧ f.decoded = none
  then some ("Failed to read file " ++ f.name) else none

/-- `handlePoseFile`: if a file is given and its declared type starts with
`image/`, read it, replace `poseImage` and clear the error slot; if a file is
given with a non-image type, set the validation error; with no file, do
nothing. (A rejecting read leaves the state unchanged: the promise rejection
escapes the handler before any state update.) -/
def handlePoseFile (s : AppState) (file : Option UploadFile) : AppState :=
  match file with
  | none => s
  | some f =>
    if "image/".data.isPrefixOf f.type.data then
      match f.decoded with
      | some dataUrl => { s with poseImage := some dataUrl, error := none }
      | none => s
    else { s with error := some "Please upload a valid image file." }

/-- What `handleGenerate` did about the remote service: returned before any
dispatch, or dispatched the given list of calls. -/
inductive GenAction where
  | noCall
  | dispatched (calls : List (Nat × GenPayload))
deriving DecidableEq, Repr

/-- The state `handleGenerate` installs after the precondition checks and
before awaiting `generateMangaPanel`: generating flag on, error slot cleared,
displayed outcome emptied. -/
def preDispatchState (s : AppState) : AppState :=
  { s with isGenerating := true, error := none, generatedImages := [] }

/-- `handleGenerate`: validate that at least one character image and a pose
image are present (setting the matching error and issuing no remote call
otherwise); then clear the error and the displayed outcome, await the batch,
and either install the results or the batch error's message. -/
def handleGenerate (remote : Nat → GenPayload → RemoteCallResult)
    (schedule : Nat → Nat) (s : AppState) : AppState × GenAction :=
  if s.characterImages.isEmpty then
    ({ s with error := some "Please upload at least one character sheet." }, .noCall)
  else
    match s.poseImage with
    | none =>
      ({ s with error := some "Please upload a pose/composition reference." }, .noCall)
    | some pose =>
      let s1 := preDispatchState s
      let out := generateMangaPanel remote schedule s.characterImages pose s.customPrompt
      let s2 := match out.2 with
        | .ok results => { s1 with generatedImages := results }
        | .error e => { s1 with error := some e.message }
      ({ s2 with isGenerating := false }, .dispatched out.1)

end App

namespace DrawingCanvas

/-- A rasterized line segment of the drawing buffer. -/
structure Segment where
  x1 : ℚ
  y1 : ℚ
  x2 : ℚ
  y2 : ℚ
deriving DecidableEq, Repr

/-- The state of the drawing surface: the fixed buffer dimensions, the
`isDrawing` and `hasContent` flags, the current path position, and the
segments rasterized into the buffer since the last clear. -/
structure CanvasState where
  width : Nat
  height : Nat
  isDrawing : Bool
  hasContent : Bool
  pos : ℚ × ℚ
  segments : List Segment
deriving DecidableEq, Repr

/-- The canvas set up by the mount effect: fixed dimensions, blank black
fill, no active stroke, no content. -/
def initCanvas (width height : Nat) : CanvasState :=
  { width := width, height := height, isDrawing := false, hasContent := false
    pos := (0, 0), segments := [] }

/-- `startDrawing(x, y)`: begin a fresh path at `(x, y)`, mark the stroke
active and the canvas non-empty. -/
def startDrawing (s : CanvasState) (x y : ℚ) : CanvasState :=
  { s with pos := (x, y), isDrawing := true, hasContent := true }

/-- `draw(x, y)`: if a stroke is active, rasterize the segment from the
current path position to `(x, y)` and move the path position; otherwise do
nothing. -/
def draw (s : CanvasState) (x y : ℚ) : CanvasState :=
  if s.isDrawing then
    { s with segments := s.segments ++ [⟨s.pos.1, s.pos.2, x, y⟩], pos := (x, y) }
  else s

/-- `stopDrawing()`: close the path and clear the active flag. -/
def stopDrawing (s : CanvasState) : CanvasState :=
  { s with isDrawing := false }

/-- `clearCanvas()`: refill the buffer with the background and reset
`hasContent`. -/
def clearCanvas (s : CanvasState) : CanvasState :=
  { s with segments := [], hasContent := false }

/-- `isEmpty()` of the imperative handle: `!hasContent`. -/
def isEmpty (s : CanvasState) : Bool :=
  !s.hasContent

/-- `handleMouseDown`: the native event's `(offsetX, offsetY)` display
coordinates are rescaled by `(width / rect.width, height / rect.height)`
before being passed to `startDrawing`. -/
def handleMouseDown (s : CanvasState) (offsetX offsetY rectWidth rectHeight : ℚ) :
    CanvasState :=
  let scaleX := (s.width : ℚ) / rectWidth
  let scaleY := (s.height : ℚ) / rectHeight
  startDrawing s (offsetX * scaleX) (offsetY * scaleY)

/-- `handleMouseMove`: same rescaling, feeding `draw`. -/
def handleMouseMove (s : CanvasState) (offsetX offsetY rectWidth rectHeight : ℚ) :
    CanvasState :=
  let scaleX := (s.width : ℚ) / rectWidth
  let scaleY := (s.height : ℚ) / rectHeight
  draw s (offsetX * scaleX) (offsetY * scaleY)

/-- `handleTouchStart`: the first touch point's client coordinates are made
relative to the canvas rect and rescaled by `(width / rect.width,
height / rect.height)` before being passed to `startDrawing`. -/
def handleTouchStart (s : CanvasState)
    (clientX clientY rectLeft rectTop rectWidth rectHeight : ℚ) : CanvasState :=
  let x := (clientX - rectLeft) * ((s.width : ℚ) / rectWidth)
  let y := (clientY - rectTop) * ((s.height : ℚ) / rectHeight)
  startDrawing s x y

/-- `handleTouchMove`: same mapping, feeding `draw`. -/
def handleTouchMove (s : CanvasState)
    (clientX clientY rectLeft rectTop rectWidth rectHeight : ℚ) : CanvasState :=
  let x := (clientX - rectLeft) * ((s.width : ℚ) / rectWidth)
  let y := (clientY - rectTop) * ((s.height : ℚ) / rectHeight)
  draw s x y

/-- The buffer-space stroke operations of the surface, for stating
stroke-sequence properties. -/
inductive CanvasOp where
  | beginStroke (x y : ℚ)
  | extendStroke (x y : ℚ)
  | endStroke
  | clear
deriving DecidableEq, Repr

/-- One operation applied to the canvas state. -/
def applyOp (s : CanvasState) : CanvasOp → CanvasState
  | .beginStroke x y => startDrawing s x y
  | .extendStroke x y => draw s x y
  | .endStroke => stopDrawing s
  | .clear => clearCanvas s

/-- A sequence of operations applied in order. -/
def runOps (s : CanvasState) (ops : List CanvasOp) : CanvasState :=
  ops.foldl applyOp s

end DrawingCanvas

namespace GeminiService

/-- The successful results of the ten calls, in dispatch order: exactly the
`validImages` list computed by `generateMangaPanel`. -/
def successes (remote : Nat → GenPayload → RemoteCallResult)
    (characterImageBase64s : List String) (poseImageBase64 : String)
    (additionalPrompt : String) : List String :=
  (List.range numberOfVariations).filterMap
    (fun i => generateSingleImage remote i
      (buildPayload characterImageBase64s poseImageBase64 additionalPrompt))

end GeminiService

namespace Fixtures

open GeminiService App

/-- A remote response with one candidate whose single part carries inline
data `d`. -/
def respWith (d : String) : RemoteResponse :=
  RemoteResponse.mk
    [Candidate.mk (CandidateContent.mk
      [RemotePart.mk (some (InlinePart.mk "image/png" d))])]

/-- Stub remote capability: call 0 succeeds with data `AAA`, call 1 with
`BBB`, the remaining eight calls throw. -/
def remoteTwo : Nat → GenPayload → RemoteCallResult := fun i _ =>
  if i = 0 then .success (respWith "AAA")
  else if i = 1 then .success (respWith "BBB")
  else .failure

/-- A completion schedule under which call 0 settles last (at time 10) and
every other call settles at its own index. -/
def scheduleLate0 : Nat → Nat := fun i => if i = 0 then 10 else i

/-- Stub remote capability that always fails. -/
def remoteAllFail : Nat → GenPayload → RemoteCallResult := fun _ _ => .failure

/-- Stub remote capability: calls 0–6 succeed, each with its index as data;
calls 7–9 fail (the spec's 7-successes-of-10 scenario). -/
def remoteSeven : Nat → GenPayload → RemoteCallResult := fun i _ =>
  if i < 7 then .success (respWith (toString i)) else .failure

/-- A blank application state. -/
def emptyState : AppState :=
  { characterImages := [], poseImage := none, generatedImages := [],
    isGenerating := false, error := none, customPrompt := "" }

/-- A state holding one character image, a pose image, a previously displayed
outcome and a previous error. -/
def richState : AppState :=
  { characterImages := ["data:image/png;base64,Q0hBUg=="],
    poseImage := some "data:image/png;base64,UE9TRQ==",
    generatedImages := ["data:image/png;base64,T0xE"],
    isGenerating := false, error := some "old error", customPrompt := "" }

end Fixtures

/-! ## Theorems -/

open GeminiService App DrawingCanvas

theorem generateMangaPanel_calls_eq (remote : Nat → GenPayload → RemoteCallResult)
    (schedule : Nat → Nat) (chars : List String) (pose prompt : String) :
    (generateMangaPanel remote schedule chars pose prompt).1
      = (List.range numberOfVariations).map
          (fun i => (i, buildPayload chars pose prompt)) := rfl

theorem generateMangaPanel_outcome_eq (remote : Nat → GenPayload → RemoteCallResult)
    (schedule : Nat → Nat) (chars : List String) (pose prompt : String) :
    (generateMangaPanel remote schedule chars pose prompt).2
      = if (successes remote chars pose prompt).isEmpty
        then Except.error GenError.batchExhaustion
        else Except.ok (successes remote chars pose prompt) := by
  simp only [generateMangaPanel, promiseAll, successes, List.map_map,
    List.filterMap_map, Function.comp_def, id]

/-- C1: a generation run that passes its preconditions issues exactly 10
remote calls, all with the identical payload; when exactly `k` of them
(`1 ≤ k`) succeed with an image, the outcome sequence is exactly the `k`
successful image payloads, and no individual-call failure is visible in it. -/
theorem fanout_ten_identical_calls_k_successes
    (remote : Nat → GenPayload → RemoteCallResult) (schedule : Nat → Nat)
    (chars : List String) (pose prompt : String) (k : Nat)
    (hk : (successes remote chars pose prompt).length = k) (h1 : 1 ≤ k) :
    (generateMangaPanel remote schedule chars pose prompt).1.length = 10 ∧
    (∀ c ∈ (generateMangaPanel remote schedule chars pose prompt).1,
      c.2 = buildPayload chars pose prompt) ∧
    (generateMangaPanel remote schedule chars pose prompt).2
      = Except.ok (successes remote chars pose prompt) ∧
    (successes remote chars pose prompt).length = k ∧
    (∀ img ∈ successes remote chars pose prompt,
      ∃ i, i < 10 ∧
        generateSingleImage remote i (buildPayload chars pose prompt) = some img) := by
  refine ⟨?_, ?_, ?_, hk, ?_⟩
  · rw [generateMangaPanel_calls_eq]
    simp [numberOfVariations]
  · rw [generateMangaPanel_calls_eq]
    intro c hc
    simp only [List.mem_map] at hc
    obtain ⟨i, _, rfl⟩ := hc
    rfl
  · rw [generateMangaPanel_outcome_eq]
    have hne : successes remote chars pose prompt ≠ [] := by
      intro hnil
      rw [hnil] at hk
      simp at hk
      omega
    simp [List.isEmpty_eq_false.mpr hne]
  · intro img himg
    simp only [successes, List.mem_filterMap, List.mem_range] at himg
    obtain ⟨i, hi, hsome⟩ := himg
    exact ⟨i, hi, hsome⟩

/-- Witness for C1 at the spec's 7-of-10 stub remote capability. -/
theorem fanout_ten_identical_calls_k_successes_witness :
    (successes Fixtures.remoteSeven ["c"] "p" "").length = 7 ∧ 1 ≤ 7 ∧
    ((generateMangaPanel Fixtures.remoteSeven (fun i => i) ["c"] "p" "").1.length = 10 ∧
     (∀ c ∈ (generateMangaPanel Fixtures.remoteSeven (fun i => i) ["c"] "p" "").1,
       c.2 = buildPayload ["c"] "p" "") ∧
     (generateMangaPanel Fixtures.remoteSeven (fun i => i) ["c"] "p" "").2
       = Except.ok (successes Fixtures.remoteSeven ["c"] "p" "") ∧
     (successes Fixtures.remoteSeven ["c"] "p" "").length = 7 ∧
     (∀ img ∈ successes Fixtures.remoteSeven ["c"] "p" "",
       ∃ i, i < 10 ∧
         generateSingleImage Fixtures.remoteSeven i (buildPayload ["c"] "p" "")
           = some img)) :=
  ⟨by rfl, by decide,
   fanout_ten_identical_calls_k_successes Fixtures.remoteSeven (fun i => i)
     ["c"] "p" "" 7 (by rfl) (by decide)⟩

/-- C2: when all 10 calls fail or yield no inline image, `generateMangaPanel`
raises the single batch-level error and produces no outcome sequence; and in
general the caller never receives an empty success sequence. -/
theorem all_fail_single_batch_error (remote : Nat → GenPayload → RemoteCallResult)
    (schedule : Nat → Nat) (chars : List String) (pose prompt : String) :
    ((∀ i, i < 10 →
        generateSingleImage remote i (buildPayload chars pose prompt) = none) →
      (generateMangaPanel remote schedule chars pose prompt).2
        = Except.error GenError.batchExhaustion ∧
      GenError.batchExhaustion.message = "Failed to generate any images." ∧
      ∀ l, (generateMangaPanel remote schedule chars pose prompt).2
        ≠ Except.ok l) ∧
    (generateMangaPanel remote schedule chars pose prompt).2 ≠ Except.ok [] := by
  constructor
  · intro hall
    have hnil : successes remote chars pose prompt = [] := by
      simp only [successes, List.filterMap_eq_nil_iff, List.mem_range]
      intro i hi
      exact hall i hi
    rw [generateMangaPanel_outcome_eq, hnil]
    exact ⟨rfl, rfl, fun l h => by simp at h⟩
  · rw [generateMangaPanel_outcome_eq]
    by_cases h : (successes remote chars pose prompt).isEmpty
    · simp only [if_pos h]
      simp
    · simp only [if_neg h]
      intro hok
      have h2 : successes remote chars pose prompt = [] := by injection hok
      rw [h2] at h
      simp at h

/-- Witness for C2 at the always-failing stub remote capability. -/
theorem all_fail_single_batch_error_witness :
    ((∀ i, i < 10 →
        generateSingleImage Fixtures.remoteAllFail i (buildPayload ["c"] "p" "") = none) →
      (generateMangaPanel Fixtures.remoteAllFail (fun i => i) ["c"] "p" "").2
        = Except.error GenError.batchExhaustion ∧
      GenError.batchExhaustion.message = "Failed to generate any images." ∧
      ∀ l, (generateMangaPanel Fixtures.remoteAllFail (fun i => i) ["c"] "p" "").2
        ≠ Except.ok l) ∧
    (generateMangaPanel Fixtures.remoteAllFail (fun i => i) ["c"] "p" "").2
      ≠ Except.ok [] :=
  all_fail_single_batch_error Fixtures.remoteAllFail (fun i => i) ["c"] "p" ""

/-- C3: with an empty character set or an unset pose reference,
`handleGenerate` sets the matching validation error and issues no remote
call; with at least one character image and a pose reference set, the batch
of requests built from them is dispatched. -/
theorem validation_before_dispatch (remote : Nat → GenPayload → RemoteCallResult)
    (schedule : Nat → Nat) (s : AppState) :
    (s.characterImages = [] →
      handleGenerate remote schedule s
        = ({ s with error := some "Please upload at least one character sheet." },
           GenAction.noCall)) ∧
    (s.characterImages ≠ [] → s.poseImage = none →
      handleGenerate remote schedule s
        = ({ s with error := some "Please upload a pose/composition reference." },
           GenAction.noCall)) ∧
    (∀ p, s.characterImages ≠ [] → s.poseImage = some p →
      (handleGenerate remote schedule s).2
        = GenAction.dispatched ((List.range numberOfVariations).map
            (fun i => (i, buildPayload s.characterImages p s.customPrompt)))) := by
  refine ⟨?_, ?_, ?_⟩
  · intro hc
    simp [handleGenerate, hc]
  · intro hc hp
    simp [handleGenerate, List.isEmpty_eq_false.mpr hc, hp]
  · intro p hc hp
    simp only [handleGenerate, List.isEmpty_eq_false.mpr hc, Bool.false_eq_true,
      if_false, hp]
    rw [← generateMangaPanel_calls_eq remote schedule s.characterImages p s.customPrompt]

/-- Witness for C3: a blank state is rejected with the character-sheet error
and no call; a populated state dispatches the ten requests. -/
theorem validation_before_dispatch_witness :
    Fixtures.emptyState.characterImages = [] ∧
    handleGenerate Fixtures.remoteAllFail (fun i => i) Fixtures.emptyState
      = ({ Fixtures.emptyState with
            error := some "Please upload at least one character sheet." },
         GenAction.noCall) ∧
    Fixtures.richState.characterImages ≠ [] ∧
    Fixtures.richState.poseImage = some "data:image/png;base64,UE9TRQ==" ∧
    (handleGenerate Fixtures.remoteTwo (fun i => i) Fixtures.richState).2
      = GenAction.dispatched ((List.range numberOfVariations).map
          (fun i => (i, buildPayload Fixtures.richState.characterImages
            "data:image/png;base64,UE9TRQ==" Fixtures.richState.customPrompt))) :=
  ⟨rfl,
   (validation_before_dispatch Fixtures.remoteAllFail (fun i => i)
      Fixtures.emptyState).1 rfl,
   by decide, rfl,
   (validation_before_dispatch Fixtures.remoteTwo (fun i => i)
      Fixtures.richState).2.2 "data:image/png;base64,UE9TRQ==" (by decide) rfl⟩

/-- C10: a generate invocation that passes the precondition checks empties the
displayed outcome and clears the error slot before dispatching; when the
batch then fails, the displayed outcome stays empty — the previous outcome is
not restored — and the error slot holds exactly the new failure message. -/
theorem failed_batch_leaves_empty_outcome
    (remote : Nat → GenPayload → RemoteCallResult) (schedule : Nat → Nat)
    (s : AppState) (p : String)
    (hc : s.characterImages ≠ []) (hp : s.poseImage = some p) :
    (preDispatchState s).generatedImages = [] ∧
    (preDispatchState s).error = none ∧
    (∀ e, (generateMangaPanel remote schedule s.characterImages p s.customPrompt).2
        = Except.error e →
      (handleGenerate remote schedule s).1.generatedImages = [] ∧
      (handleGenerate remote schedule s).1.error = some e.message) := by
  refine ⟨rfl, rfl, ?_⟩
  intro e he
  simp [handleGenerate, List.isEmpty_eq_false.mpr hc, hp, he, preDispatchState]

/-- Witness for C10: a state with a previously displayed outcome and an old
error, against the always-failing remote capability. -/
theorem failed_batch_leaves_empty_outcome_witness :
    Fixtures.richState.characterImages ≠ [] ∧
    Fixtures.richState.poseImage = some "data:image/png;base64,UE9TRQ==" ∧
    Fixtures.richState.generatedImages ≠ [] ∧
    ((preDispatchState Fixtures.richState).generatedImages = [] ∧
     (preDispatchState Fixtures.richState).error = none ∧
     (∀ e, (generateMangaPanel Fixtures.remoteAllFail (fun i => i)
          Fixtures.richState.characterImages "data:image/png;base64,UE9TRQ=="
          Fixtures.richState.customPrompt).2 = Except.error e →
        (handleGenerate Fixtures.remoteAllFail (fun i => i)
          Fixtures.richState).1.generatedImages = [] ∧
        (handleGenerate Fixtures.remoteAllFail (fun i => i)
          Fixtures.richState).1.error = some e.message)) :=
  ⟨by decide, rfl, by decide,
   failed_batch_leaves_empty_outcome Fixtures.remoteAllFail (fun i => i)
     Fixtures.richState "data:image/png;base64,UE9TRQ==" (by decide) rfl⟩

/-- C4 fails on the code: `Promise.all` indexes its result array by dispatch
order. Under a schedule where call 0 settles after every other call (all
completion times distinct), the code's outcome still lists call 0's image
first, while ordering by settlement would list it last. -/
theorem outcome_not_settlement_ordered :
    (generateMangaPanel Fixtures.remoteTwo Fixtures.scheduleLate0 ["c"] "p" "").2
      = Except.ok ["data:image/png;base64,AAA", "data:image/png;base64,BBB"] ∧
    settlementOutcome Fixtures.remoteTwo Fixtures.scheduleLate0 ["c"] "p" ""
      = ["data:image/png;base64,BBB", "data:image/png;base64,AAA"] ∧
    (∀ i, i < 10 → ∀ j, j < 10 →
      Fixtures.scheduleLate0 i = Fixtures.scheduleLate0 j → i = j) ∧
    ("data:image/png;base64,AAA" : String) ≠ "data:image/png;base64,BBB" :=
  ⟨rfl, rfl, by decide, by decide⟩

/-- C4 amended: the outcome sequence orders the successful payloads by the
dispatch (submission) order of the ten calls; it is independent of the
completion schedule. -/
theorem outcome_dispatch_ordered (remote : Nat → GenPayload → RemoteCallResult)
    (sched1 sched2 : Nat → Nat) (chars : List String) (pose prompt : String) :
    (generateMangaPanel remote sched1 chars pose prompt).2
      = (generateMangaPanel remote sched2 chars pose prompt).2 ∧
    (successes remote chars pose prompt ≠ [] →
      (generateMangaPanel remote sched1 chars pose prompt).2
        = Except.ok (successes remote chars pose prompt)) := by
  constructor
  · rw [generateMangaPanel_outcome_eq, generateMangaPanel_outcome_eq]
  · intro h
    rw [generateMangaPanel_outcome_eq]
    simp [List.isEmpty_eq_false.mpr h]

/-- Witness for the amended C4 at the two-success stub and two distinct
schedules. -/
theorem outcome_dispatch_ordered_witness :
    ((generateMangaPanel Fixtures.remoteTwo Fixtures.scheduleLate0 ["c"] "p" "").2
      = (generateMangaPanel Fixtures.remoteTwo (fun i => i) ["c"] "p" "").2) ∧
    successes Fixtures.remoteTwo ["c"] "p" "" ≠ [] ∧
    (generateMangaPanel Fixtures.remoteTwo Fixtures.scheduleLate0 ["c"] "p" "").2
      = Except.ok (successes Fixtures.remoteTwo ["c"] "p" "") :=
  ⟨(outcome_dispatch_ordered Fixtures.remoteTwo Fixtures.scheduleLate0
      (fun i => i) ["c"] "p" "").1,
   by decide,
   (outcome_dispatch_ordered Fixtures.remoteTwo Fixtures.scheduleLate0
      (fun i => i) ["c"] "p" "").2 (by decide)⟩

/-- C5: both the mouse and the touch input paths pass the display coordinate
`(x, y)` to the stroke operations rescaled to exactly
`(x·bufferWidth/displayedWidth, y·bufferHeight/displayedHeight)`, for stroke
start (BeginStroke) and stroke extension (ExtendStroke) alike. -/
theorem pointer_coordinate_rescaling (s : CanvasState)
    (x y clientX clientY rectLeft rectTop rectWidth rectHeight : ℚ)
    (hx : x = clientX - rectLeft) (hy : y = clientY - rectTop)
    (hdraw : s.isDrawing = true) :
    (handleMouseDown s x y rectWidth rectHeight).pos
      = (x * s.width / rectWidth, y * s.height / rectHeight) ∧
    (handleTouchStart s clientX clientY rectLeft rectTop rectWidth rectHeight).pos
      = (x * s.width / rectWidth, y * s.height / rectHeight) ∧
    (handleMouseMove s x y rectWidth rectHeight).pos
      = (x * s.width / rectWidth, y * s.height / rectHeight) ∧
    (handleTouchMove s clientX clientY rectLeft rectTop rectWidth rectHeight).pos
      = (x * s.width / rectWidth, y * s.height / rectHeight) := by
  subst hx hy
  refine ⟨?_, ?_, ?_, ?_⟩ <;>
    simp [handleMouseDown, handleMouseMove, handleTouchStart, handleTouchMove,
      startDrawing, draw, hdraw, mul_div_assoc]

/-- Witness for C5: a 512×512 buffer displayed at 256×128, pointer at display
coordinate (100, 40) (touch client coordinates (150, 60) against a rect at
(50, 20)). -/
theorem pointer_coordinate_rescaling_witness :
    ((100 : ℚ) = 150 - 50) ∧ ((40 : ℚ) = 60 - 20) ∧
    (CanvasState.mk 512 512 true false (0, 0) []).isDrawing = true ∧
    ((handleMouseDown (CanvasState.mk 512 512 true false (0, 0) []) 100 40 256 128).pos
      = (100 * ((512 : ℕ) : ℚ) / 256, 40 * ((512 : ℕ) : ℚ) / 128) ∧
     (handleTouchStart (CanvasState.mk 512 512 true false (0, 0) []) 150 60 50 20 256 128).pos
      = (100 * ((512 : ℕ) : ℚ) / 256, 40 * ((512 : ℕ) : ℚ) / 128) ∧
     (handleMouseMove (CanvasState.mk 512 512 true false (0, 0) []) 100 40 256 128).pos
      = (100 * ((512 : ℕ) : ℚ) / 256, 40 * ((512 : ℕ) : ℚ) / 128) ∧
     (handleTouchMove (CanvasState.mk 512 512 true false (0, 0) []) 150 60 50 20 256 128).pos
      = (100 * ((512 : ℕ) : ℚ) / 256, 40 * ((512 : ℕ) : ℚ) / 128)) :=
  ⟨by norm_num, by norm_num, rfl,
   pointer_coordinate_rescaling (CanvasState.mk 512 512 true false (0, 0) [])
     100 40 150 60 50 20 256 128 (by norm_num) (by norm_num) rfl⟩

theorem characterFileStep_foldl (fs : List UploadFile)
    (acc : List String × List String) :
    fs.foldl characterFileStep acc
      = (acc.1 ++ fs.filterMap imageOf, acc.2 ++ fs.filterMap decodeFailLog) := by
  induction fs generalizing acc with
  | nil => simp
  | cons f rest ih =>
    rw [List.foldl_cons, ih, List.filterMap_cons, List.filterMap_cons]
    by_cases himg : "image/".data <+: f.type.data
    · cases hd : f.decoded with
      | some u =>
        have h1 : imageOf f = some u := by simp [imageOf, himg, hd]
        have h2 : decodeFailLog f = none := by simp [decodeFailLog, hd]
        have h3 : characterFileStep acc f = (acc.1 ++ [u], acc.2) := by
          simp [characterFileStep, himg, hd]
        rw [h1, h2, h3]
        simp
      | none =>
        have h1 : imageOf f = none := by simp [imageOf, hd]
        have h2 : decodeFailLog f = some ("Failed to read file " ++ f.name) := by
          simp [decodeFailLog, himg, hd]
        have h3 : characterFileStep acc f
            = (acc.1, acc.2 ++ ["Failed to read file " ++ f.name]) := by
          simp [characterFileStep, himg, hd]
        rw [h1, h2, h3]
        simp
    · have h1 : imageOf f = none := by simp [imageOf, himg]
      have h2 : decodeFailLog f = none := by simp [decodeFailLog, himg]
      have h3 : characterFileStep acc f = acc := by
        simp [characterFileStep, himg]
      rw [h1, h2, h3]

/-- C6 fails on the code: when a batch yields zero results (here its only
file is image-typed but fails to decode), `handleCharacterFiles` surfaces no
user-facing error — it clears the error slot — and leaves `CharacterSet`
unchanged; the failure is only logged. -/
theorem empty_character_batch_surfaces_no_error :
    (handleCharacterFiles Fixtures.richState
        (some [UploadFile.mk "image/png" "a.png" none])).1.error = none ∧
    (handleCharacterFiles Fixtures.richState
        (some [UploadFile.mk "image/png" "a.png" none])).1.characterImages
      = Fixtures.richState.characterImages ∧
    (handleCharacterFiles Fixtures.richState
        (some [UploadFile.mk "image/png" "a.png" none])).2
      = ["Failed to read file a.png"] ∧
    Fixtures.richState.error = some "old error" :=
  ⟨rfl, rfl, rfl, rfl⟩

/-- C6 amended: exactly the image-typed files that decode successfully are
appended to `characterImages`, in the order given; a decode failure is logged
and skipped without aborting the batch; and no user-facing error is surfaced
even when the whole batch yields zero results — the error slot is cleared
unconditionally. -/
theorem character_files_filter_append (s : AppState) (fs : List UploadFile) :
    (handleCharacterFiles s (some fs)).1.characterImages
      = s.characterImages ++ fs.filterMap imageOf ∧
    (handleCharacterFiles s (some fs)).1.error = none ∧
    (handleCharacterFiles s (some fs)).2 = fs.filterMap decodeFailLog := by
  have hfold := characterFileStep_foldl fs ([], [])
  simp only [List.nil_append] at hfold
  simp only [handleCharacterFiles, hfold]
  split_ifs with h
  · have hnil := List.isEmpty_iff.mp h
    rw [hnil]
    simp
  · simp

/-- C7: `handlePoseFile` on a non-image file raises the user-visible
validation error and leaves the pose reference untouched; on a decodable
image file it replaces the pose reference (discarding the previous value) and
clears the error slot. -/
theorem pose_file_validation (s : AppState) (f : UploadFile) (d : String) :
    (¬ ("image/".data <+: f.type.data) →
      handlePoseFile s (some f)
        = { s with error := some "Please upload a valid image file." } ∧
      (handlePoseFile s (some f)).poseImage = s.poseImage) ∧
    ("image/".data <+: f.type.data → f.decoded = some d →
      handlePoseFile s (some f) = { s with poseImage := some d, error := none }) := by
  constructor
  · intro hni
    constructor
    · simp [handlePoseFile, hni]
    · simp [handlePoseFile, hni]
  · intro hi hd
    simp [handlePoseFile, hi, hd]

/-- Witness for C7: a text file is rejected without touching the pose slot; a
png file replaces it and clears the error. -/
theorem pose_file_validation_witness :
    (¬ ("image/".data <+: ("text/plain").data) ∧
     handlePoseFile Fixtures.richState
        (some (UploadFile.mk "text/plain" "x.txt" (some "junk")))
       = { Fixtures.richState with
             error := some "Please upload a valid image file." } ∧
     (handlePoseFile Fixtures.richState
        (some (UploadFile.mk "text/plain" "x.txt" (some "junk")))).poseImage
       = Fixtures.richState.poseImage) ∧
    ("image/".data <+: ("image/png").data ∧
     handlePoseFile Fixtures.richState
        (some (UploadFile.mk "image/png" "p.png"
          (some "data:image/png;base64,TkVX")))
       = { Fixtures.richState with
             poseImage := some "data:image/png;base64,TkVX", error := none }) :=
  ⟨⟨by decide,
    (pose_file_validation Fixtures.richState
      (UploadFile.mk "text/plain" "x.txt" (some "junk")) "junk").1 (by decide)⟩,
   ⟨by decide,
    (pose_file_validation Fixtures.richState
      (UploadFile.mk "image/png" "p.png" (some "data:image/png;base64,TkVX"))
      "data:image/png;base64,TkVX").2 (by decide) rfl⟩⟩

theorem prefixAppendCases {α : Type} (p q t : List α) (h : p <+: q ++ t) :
    p <+: q ∨ q <+: p := by
  rcases Nat.le_total p.length q.length with hle | hle
  · exact Or.inl (List.prefix_of_prefix_length_le h (List.prefix_append q t) hle)
  · exact Or.inr (List.prefix_of_prefix_length_le (List.prefix_append q t) h hle)

theorem isPrefixOf_append_eq_false (p q t : List Char)
    (h1 : p.isPrefixOf q = false) (h2 : q.isPrefixOf p = false) :
    p.isPrefixOf (q ++ t) = false := by
  cases hc : p.isPrefixOf (q ++ t) with
  | false => rfl
  | true =>
    exfalso
    have hp := List.isPrefixOf_iff_prefix.mp hc
    rcases prefixAppendCases p q t hp with h | h
    · have := List.isPrefixOf_iff_prefix.mpr h
      rw [h1] at this
      exact Bool.false_ne_true this
    · have := List.isPrefixOf_iff_prefix.mpr h
      rw [h2] at this
      exact Bool.false_ne_true this

theorem isPrefixOf_append_self (p t : List Char) :
    p.isPrefixOf (p ++ t) = true :=
  List.isPrefixOf_iff_prefix.mpr (List.prefix_append p t)

theorem string_mk_data (s : String) : String.mk s.data = s := rfl

theorem stripDataUrl_of_mime (m payload : String) (hm : m ∈ imageMimes) :
    stripDataUrl ("data:image/" ++ m ++ ";base64," ++ payload) = payload := by
  simp only [imageMimes, List.mem_cons, List.mem_singleton,
    List.not_mem_nil, or_false] at hm
  rcases hm with rfl | rfl | rfl | rfl
  · show stripDataUrl ("data:image/png;base64," ++ payload) = payload
    rw [stripDataUrl, String.data_append, isPrefixOf_append_self]
    simp only [if_true]
    rw [List.drop_left, string_mk_data]
  · show stripDataUrl ("data:image/jpeg;base64," ++ payload) = payload
    rw [stripDataUrl, String.data_append,
      isPrefixOf_append_eq_false _ _ _ (by decide) (by decide),
      isPrefixOf_append_self]
    simp only [Bool.false_eq_true, if_false, if_true]
    rw [List.drop_left, string_mk_data]
  · show stripDataUrl ("data:image/jpg;base64," ++ payload) = payload
    rw [stripDataUrl, String.data_append,
      isPrefixOf_append_eq_false _ _ _ (by decide) (by decide),
      isPrefixOf_append_eq_false _ _ _ (by decide) (by decide),
      isPrefixOf_append_self]
    simp only [Bool.false_eq_true, if_false, if_true]
    rw [List.drop_left, string_mk_data]
  · show stripDataUrl ("data:image/webp;base64," ++ payload) = payload
    rw [stripDataUrl, String.data_append,
      isPrefixOf_append_eq_false _ _ _ (by decide) (by decide),
      isPrefixOf_append_eq_false _ _ _ (by decide) (by decide),
      isPrefixOf_append_eq_false _ _ _ (by decide) (by decide),
      isPrefixOf_append_self]
    simp only [Bool.false_eq_true, if_false, if_true]
    rw [List.drop_left, string_mk_data]

/-- C8 fails on the code: the strip regex only covers png, jpeg, jpg and
webp, while the normalizer accepts any `image/*` type. A gif data URL is
accepted upstream, yet its inline part keeps the full data URL rather than
the bare base64 payload. -/
theorem gif_data_url_not_stripped :
    "image/".data <+: ("image/gif").data ∧
    GenPayload.characterParts
        (buildPayload ["data:image/gif;base64,QUFB"] "data:image/png;base64,QkJC" "")
      = [InlinePart.mk "image/png" "data:image/gif;base64,QUFB"] ∧
    ("data:image/gif;base64,QUFB" : String) ≠ "QUFB" :=
  ⟨by decide, rfl, by decide⟩

/-- C8 amended: the orchestrator strips the data-URL prefix exactly for the
four regex mime alternatives png, jpeg, jpg and webp; every inline character
part and the pose part carry `stripDataUrl` of their input, which for those
four mime types is the bare base64 payload (other accepted image mime types
pass through with the prefix intact). -/
theorem data_url_strip_known_mimes (chars : List String)
    (pose prompt m payload : String) (hm : m ∈ imageMimes) :
    (buildPayload chars pose prompt).characterParts
      = chars.map (fun c => InlinePart.mk "image/png" (stripDataUrl c)) ∧
    (buildPayload chars pose prompt).posePart
      = InlinePart.mk "image/png" (stripDataUrl pose) ∧
    stripDataUrl ("data:image/" ++ m ++ ";base64," ++ payload) = payload :=
  ⟨rfl, rfl, stripDataUrl_of_mime m payload hm⟩

/-- Witness for the amended C8 at mime `webp` and payload `QUFB`. -/
theorem data_url_strip_known_mimes_witness :
    ("webp" : String) ∈ imageMimes ∧
    (GenPayload.characterParts
        (buildPayload ["data:image/webp;base64,QUFB"] "data:image/png;base64,QkJC" "")
      = ["data:image/webp;base64,QUFB"].map
          (fun c => InlinePart.mk "image/png" (stripDataUrl c)) ∧
     GenPayload.posePart
        (buildPayload ["data:image/webp;base64,QUFB"] "data:image/png;base64,QkJC" "")
      = InlinePart.mk "image/png" (stripDataUrl "data:image/png;base64,QkJC") ∧
     stripDataUrl ("data:image/" ++ "webp" ++ ";base64," ++ "QUFB") = "QUFB") :=
  ⟨by decide,
   data_url_strip_known_mimes ["data:image/webp;base64,QUFB"]
     "data:image/png;base64,QkJC" "" "webp" "QUFB" (by decide)⟩

theorem hasContent_preserved_without_clear (r : List CanvasOp) :
    ∀ s : CanvasState, s.hasContent = true → CanvasOp.clear ∉ r →
      (runOps s r).hasContent = true := by
  induction r with
  | nil => intro s hs _; exact hs
  | cons op rest ih =>
    intro s hs hmem
    have hop : op ≠ CanvasOp.clear := fun h => hmem (h ▸ List.mem_cons_self op rest)
    have hrest : CanvasOp.clear ∉ rest := fun h => hmem (List.mem_cons_of_mem op h)
    rw [runOps, List.foldl_cons]
    refine ih (applyOp s op) ?_ hrest
    cases op with
    | beginStroke x y => rfl
    | extendStroke x y =>
      show (draw s x y).hasContent = true
      rw [draw]
      split <;> exact hs
    | endStroke => exact hs
    | clear => exact absurd rfl hop

/-- C9: `isEmpty` is true immediately after the canvas is set up and
immediately after `Clear`; once a stroke has begun (`BeginStroke`, with any
continuation of `ExtendStroke`/`EndStroke` operations), `isEmpty` stays false
as long as no `Clear` follows. -/
theorem isEmpty_iff_no_committed_stroke (w h : Nat) (s : CanvasState)
    (l r : List CanvasOp) (x y : ℚ) (hr : CanvasOp.clear ∉ r) :
    isEmpty (initCanvas w h) = true ∧
    isEmpty (clearCanvas s) = true ∧
    isEmpty (runOps s (l ++ CanvasOp.beginStroke x y :: r)) = false := by
  refine ⟨rfl, rfl, ?_⟩
  rw [runOps, List.foldl_append, List.foldl_cons]
  have hbegin : (applyOp (List.foldl applyOp s l) (CanvasOp.beginStroke x y)).hasContent
      = true := rfl
  have := hasContent_preserved_without_clear r
    (applyOp (List.foldl applyOp s l) (CanvasOp.beginStroke x y)) hbegin hr
  rw [runOps] at this
  simp [isEmpty, this]

/-- Witness for C9: a begin–extend–end stroke starting from a fresh canvas,
followed by more input but no clear. -/
theorem isEmpty_iff_no_committed_stroke_witness :
    CanvasOp.clear ∉ [CanvasOp.extendStroke 3 4, CanvasOp.endStroke] ∧
    (isEmpty (initCanvas 512 512) = true ∧
     isEmpty (clearCanvas (initCanvas 512 512)) = true ∧
     isEmpty (runOps (initCanvas 512 512)
       ([] ++ CanvasOp.beginStroke 1 2 ::
         [CanvasOp.extendStroke 3 4, CanvasOp.endStroke])) = false) :=
  ⟨by decide,
   isEmpty_iff_no_committed_stroke 512 512 (initCanvas 512 512)
     [] [CanvasOp.extendStroke 3 4, CanvasOp.endStroke] 1 2 (by decide)⟩
